import Mathlib

/-
Verification of the global-flux orchestration and dose-accumulation code
(armi/physics/neutronics/globalFlux/globalFluxInterface.py) against its
natural-language specification.

Real-valued physics quantities are modelled with exact rational arithmetic
(ℚ); fallible code returns Except, and log warnings are returned alongside
results where a claim mentions them.
-/

namespace GlobalFlux

/-- Conversion constant from barns to square centimeters
(`units.CM2_PER_BARN` = 1e-24). -/
def CM2_PER_BARN : ℚ := 1 / 10 ^ 24

/-- Warning emitted by `computeDpaRate` on a group-structure length mismatch. -/
def dpaLengthMismatchWarning : String :=
  "Multigroup flux is incompatible with dpa cross section; dpa rate will be set to 0.0"

/-- Warning emitted by `computeDpaRate` when the computed rate is negative. -/
def negativeDpaWarning : String := "Negative DPA rate calculated"

/-- Fatal error raised by `computeDpaRate` on a substantially negative rate. -/
def negativeDpaError : String := "Calculated DPA rate is substantially negative"

/-- Shallow embedding of `computeDpaRate(mgFlux, dpaXs)`.

Mirrors the source: on a length mismatch it warns and returns the (still
zero) `displacements` accumulator; otherwise it convolutes flux with the dpa
cross sections, converts barns to cm^2, and post-processes negative results
(warn, raise when below -1e-10, clamp to zero otherwise).  The first
component collects the `runLog.warning` messages issued during the call. -/
def computeDpaRate (mgFlux dpaXs : List ℚ) : List String × Except String ℚ :=
  let displacements : ℚ := 0
  if mgFlux.length ≠ dpaXs.length then
    ([dpaLengthMismatchWarning], .ok displacements)
  else
    let displacements :=
      (List.zip mgFlux dpaXs).foldl (fun acc fb => acc + fb.1 * fb.2) displacements
    let dpaPerSecond := displacements * CM2_PER_BARN
    if dpaPerSecond < 0 then
      if dpaPerSecond < -(1 / 10 ^ 10 : ℚ) then
        ([negativeDpaWarning], .error negativeDpaError)
      else
        ([negativeDpaWarning], .ok 0)
    else
      ([], .ok dpaPerSecond)

/-- The value `displacements * CM2_PER_BARN` computed by `computeDpaRate`
before its negativity post-processing. -/
def rawDpaRate (mgFlux dpaXs : List ℚ) : ℚ :=
  ((List.zip mgFlux dpaXs).foldl (fun acc fb => acc + fb.1 * fb.2) 0) * CM2_PER_BARN

theorem foldl_mul_add_eq_sum (l : List (ℚ × ℚ)) (a : ℚ) :
    l.foldl (fun acc fb => acc + fb.1 * fb.2) a
      = a + (l.map (fun fb => fb.1 * fb.2)).sum := by
  induction l generalizing a with
  | nil => simp
  | cons hd tl ih => simp [List.foldl, ih, add_assoc]

theorem map_zip_eq_zipWith (l1 l2 : List ℚ) :
    (List.zip l1 l2).map (fun fb => fb.1 * fb.2)
      = List.zipWith (fun f x => f * x) l1 l2 := by
  induction l1 generalizing l2 with
  | nil => simp
  | cons hd tl ih =>
    cases l2 with
    | nil => simp
    | cons hd2 tl2 =>
      have h := ih tl2
      simp only [List.zip] at h
      simp [List.zip, List.zipWith, h]

theorem zip_foldl_eq_zipWith_sum (l1 l2 : List ℚ) :
    (List.zip l1 l2).foldl (fun acc fb => acc + fb.1 * fb.2) 0
      = (List.zipWith (fun f x => f * x) l1 l2).sum := by
  rw [foldl_mul_add_eq_sum, map_zip_eq_zipWith, zero_add]

theorem rawDpaRate_eq_zipWith_sum (l1 l2 : List ℚ) :
    rawDpaRate l1 l2 = (List.zipWith (fun f x => f * x) l1 l2).sum * CM2_PER_BARN := by
  rw [rawDpaRate, zip_foldl_eq_zipWith_sum]

/-- C4: for equal-length multigroup flux and dpa cross-section vectors (with a
non-negative convolution, the physical situation), `computeDpaRate` returns
the sum over groups of `flux[g] * dpaXs[g]` multiplied by the barn-to-cm^2
constant 1e-24, with no warnings. -/
theorem computeDpaRate_sum (mgFlux dpaXs : List ℚ)
    (hlen : mgFlux.length = dpaXs.length)
    (hpos : 0 ≤ (List.zipWith (fun f x => f * x) mgFlux dpaXs).sum) :
    computeDpaRate mgFlux dpaXs
      = ([], .ok ((List.zipWith (fun f x => f * x) mgFlux dpaXs).sum * CM2_PER_BARN)) := by
  unfold computeDpaRate
  rw [if_neg (by simp [hlen])]
  simp only [zip_foldl_eq_zipWith_sum]
  have hCM : (0 : ℚ) < CM2_PER_BARN := by norm_num [CM2_PER_BARN]
  have hnn : 0 ≤ (List.zipWith (fun f x => f * x) mgFlux dpaXs).sum * CM2_PER_BARN :=
    mul_nonneg hpos (le_of_lt hCM)
  rw [if_neg (by simpa using not_lt.mpr hnn)]

/-- C4 witness: `computeDpaRate([1e14, 2e14], [10, 20])` equals 5e-9 dpa/s. -/
theorem computeDpaRate_sum_witness :
    computeDpaRate [10 ^ 14, 2 * 10 ^ 14] [10, 20] = ([], .ok (5 / 10 ^ 9)) := by
  have h := computeDpaRate_sum [10 ^ 14, 2 * 10 ^ 14] [10, 20] (by decide) (by norm_num)
  rw [h]
  norm_num [CM2_PER_BARN]

/-- C5 (amended): when the computed dpa rate is negative but not strictly
below -1e-10 the function warns and clamps the result to 0.0, and when the
computed rate is strictly below -1e-10 it fails fatally.  (The source tests
`dpaPerSecond < -1.0e-10`, so a rate of exactly -1e-10 is clamped, not
fatal.) -/
theorem computeDpaRate_negative (mgFlux dpaXs : List ℚ)
    (hlen : mgFlux.length = dpaXs.length) :
    (rawDpaRate mgFlux dpaXs < 0 → -(1 / 10 ^ 10 : ℚ) ≤ rawDpaRate mgFlux dpaXs →
      computeDpaRate mgFlux dpaXs = ([negativeDpaWarning], .ok 0)) ∧
    (rawDpaRate mgFlux dpaXs < -(1 / 10 ^ 10 : ℚ) →
      computeDpaRate mgFlux dpaXs = ([negativeDpaWarning], .error negativeDpaError)) := by
  constructor
  · intro hneg hge
    unfold computeDpaRate
    rw [if_neg (by simp [hlen])]
    simp only
    rw [if_pos (by simpa [rawDpaRate] using hneg),
      if_neg (by simpa [rawDpaRate] using not_lt.mpr hge)]
  · intro hlt
    unfold computeDpaRate
    rw [if_neg (by simp [hlen])]
    simp only
    have hneg : rawDpaRate mgFlux dpaXs < 0 :=
      lt_trans hlt (by norm_num)
    rw [if_pos (by simpa [rawDpaRate] using hneg),
      if_pos (by simpa [rawDpaRate] using hlt)]

/-- C5 counterexample: at a computed rate of exactly -1e-10 the code warns
and clamps to 0.0, whereas the claim says a rate at or below -1e-10 is
fatal. -/
theorem computeDpaRate_boundary_counterexample :
    rawDpaRate [10 ^ 14] [-1] = -(1 / 10 ^ 10) ∧
    computeDpaRate [10 ^ 14] [-1] = ([negativeDpaWarning], .ok 0) := by
  constructor
  · norm_num [rawDpaRate, CM2_PER_BARN]
  · norm_num [computeDpaRate, CM2_PER_BARN]

/-- C5 witness: a computed rate of exactly -1e-11 clamps to 0.0 and a
computed rate of -1e-9 raises the fatal error. -/
theorem computeDpaRate_negative_witness :
    computeDpaRate [10 ^ 13] [-1] = ([negativeDpaWarning], .ok 0) ∧
    computeDpaRate [10 ^ 15] [-1] = ([negativeDpaWarning], .error negativeDpaError) :=
  ⟨(computeDpaRate_negative [10 ^ 13] [-1] rfl).1 (by norm_num [rawDpaRate, CM2_PER_BARN])
      (by norm_num [rawDpaRate, CM2_PER_BARN]),
    (computeDpaRate_negative [10 ^ 15] [-1] rfl).2 (by norm_num [rawDpaRate, CM2_PER_BARN])⟩

/-- C6: for input vectors of unequal length, `computeDpaRate` emits a warning
and returns 0.0 without raising. -/
theorem computeDpaRate_mismatch (mgFlux dpaXs : List ℚ)
    (h : mgFlux.length ≠ dpaXs.length) :
    computeDpaRate mgFlux dpaXs = ([dpaLengthMismatchWarning], .ok 0) := by
  unfold computeDpaRate
  rw [if_pos (by simpa using h)]

/-- C6 witness: a two-group flux against a one-group cross-section set warns
and returns 0.0. -/
theorem computeDpaRate_mismatch_witness :
    computeDpaRate [10 ^ 14, 2 * 10 ^ 14] [10] = ([dpaLengthMismatchWarning], .ok 0) :=
  computeDpaRate_mismatch [10 ^ 14, 2 * 10 ^ 14] [10] (by decide)

/-! ## Reaction-rate engine (`calcReactionRates`) -/

/-- Reaction labels whose microscopic cross sections contribute to absorption
(`RX_ABS_MICRO_LABELS`). -/
def RX_ABS_MICRO_LABELS : List String := ["nGamma", "fission", "nalph", "np", "nd", "nt"]

/-- Microscopic cross-section record of one nuclide (`nucMc.micros`): indexed
by reaction label, plus the per-group fission-neutron yield and the n2n cross
section. -/
structure Micros where
  byName : String → List ℚ
  neutronsPerFission : List ℚ
  n2n : List ℚ

/-- Cross-section library boundary: `lib.getNuclide(name, suffix)`. -/
structure XSLibrary where
  getNuclide : String → String → Micros

/-- The slice of an ArmiObject (block) read by `calcReactionRates`. -/
structure RxObject where
  numberDensities : List (String × ℚ)
  mgFlux : List ℚ
  microSuffix : String
  fuelAreaFrac : ℚ

/-- Accumulator for one nuclide (the `nucrate` dict) and for the running
totals (the `rate` dict). -/
structure RateAcc where
  rateCap : ℚ
  rateFis : ℚ
  rateProdN2n : ℚ
  rateProdFis : ℚ
  rateAbs : ℚ

def RateAcc.zero : RateAcc := ⟨0, 0, 0, 0, 0⟩

/-- Parameters written onto the object by `calcReactionRates`. -/
structure RateParams where
  rateCap : ℚ
  rateFis : ℚ
  rateProdN2n : ℚ
  rateProdFis : ℚ
  rateAbs : ℚ
  fisDens : ℚ
  fisDensHom : ℚ

/-- One label of the absorption loop: iterate the groups of
`zip(mgFlux, micros[name])` and accumulate absorption, capture or fission
(and the keff-scaled fission production).  The source indexes
`micros.neutronsPerFission[g]`; a too-short yield vector would raise in
Python and is rendered totally with `getD` (it does not affect the
absorption fields). -/
def absStep (keff numberDensity : ℚ) (mgFlux : List ℚ) (micros : Micros)
    (acc : RateAcc) (name : String) : RateAcc :=
  ((List.zip mgFlux (micros.byName name)).enum).foldl
    (fun acc gp =>
      let groupFlux := gp.2.1
      let xs := gp.2.2
      let dphi := numberDensity * groupFlux
      let acc := { acc with rateAbs := acc.rateAbs + dphi * xs }
      if name ≠ "fission" then
        { acc with rateCap := acc.rateCap + dphi * xs }
      else
        let acc := { acc with rateFis := acc.rateFis + dphi * xs }
        { acc with
          rateProdFis :=
            acc.rateProdFis + dphi * xs * (micros.neutronsPerFission.getD gp.1 0) / keff })
    acc

/-- The n2n loop of `calcReactionRates`: each n2n reaction yields two
secondary neutrons, hence the factor 2. -/
def n2nStep (numberDensity : ℚ) (mgFlux : List ℚ) (micros : Micros)
    (acc : RateAcc) : RateAcc :=
  (List.zip mgFlux micros.n2n).foldl
    (fun acc p =>
      let dphi := numberDensity * p.1
      { acc with rateProdN2n := acc.rateProdN2n + 2 * dphi * p.2 })
    acc

/-- The `if nucrate[simple]: rate[simple] += nucrate[simple]` accumulation. -/
def addIfNonzero (total inc : ℚ) : ℚ := if inc ≠ 0 then total + inc else total

/-- The per-nuclide rates (`nucrate`) of `calcReactionRates`. -/
def nucRate (obj : RxObject) (keff : ℚ) (lib : XSLibrary)
    (nucName : String) (numberDensity : ℚ) : RateAcc :=
  let micros := (lib.getNuclide nucName obj.microSuffix)
  let acc := RX_ABS_MICRO_LABELS.foldl (absStep keff numberDensity obj.mgFlux micros) RateAcc.zero
  n2nStep numberDensity obj.mgFlux micros acc

/-- Shallow embedding of `calcReactionRates(obj, keff, lib)`: loop over the
nuclides with nonzero number density, accumulate the per-nuclide rates into
the totals, and derive the fission densities (with the 1.0 normalization
fallback when the fission rate is not positive). -/
def calcReactionRates (obj : RxObject) (keff : ℚ) (lib : XSLibrary) : RateParams :=
  let rate := obj.numberDensities.foldl
    (fun rate nd =>
      if nd.2 = 0 then rate
      else
        let nucrate := nucRate obj keff lib nd.1 nd.2
        { rateCap := addIfNonzero rate.rateCap nucrate.rateCap
          rateFis := addIfNonzero rate.rateFis nucrate.rateFis
          rateProdN2n := addIfNonzero rate.rateProdN2n nucrate.rateProdN2n
          rateProdFis := addIfNonzero rate.rateProdFis nucrate.rateProdFis
          rateAbs := addIfNonzero rate.rateAbs nucrate.rateAbs })
    RateAcc.zero
  let vFuel := if rate.rateFis > 0 then obj.fuelAreaFrac else 1
  { rateCap := rate.rateCap
    rateFis := rate.rateFis
    rateProdN2n := rate.rateProdN2n
    rateProdFis := rate.rateProdFis
    rateAbs := rate.rateAbs
    fisDens := rate.rateFis / vFuel
    fisDensHom := rate.rateFis }

theorem addIfNonzero_eq_add (total inc : ℚ) : addIfNonzero total inc = total + inc := by
  unfold addIfNonzero
  by_cases h : inc = 0 <;> simp [h]

/-- The group loop of one absorption label preserves the difference
`rateAbs - rateCap - rateFis`: each group adds `dphi * xs` to absorption and
the same amount to exactly one of capture or fission. -/
theorem absStep_preserves (keff numberDensity : ℚ) (mgFlux : List ℚ) (micros : Micros)
    (acc : RateAcc) (name : String) :
    (absStep keff numberDensity mgFlux micros acc name).rateAbs
        - (absStep keff numberDensity mgFlux micros acc name).rateCap
        - (absStep keff numberDensity mgFlux micros acc name).rateFis
      = acc.rateAbs - acc.rateCap - acc.rateFis := by
  unfold absStep
  generalize (List.zip mgFlux (micros.byName name)).enum = l
  induction l generalizing acc with
  | nil => rfl
  | cons hd tl ih =>
    rw [List.foldl_cons]
    rw [ih]
    by_cases h : name ≠ "fission" <;> (simp [h]; try ring)

/-- The n2n loop touches only `rateProdN2n`. -/
theorem n2nStep_preserves (numberDensity : ℚ) (mgFlux : List ℚ) (micros : Micros)
    (acc : RateAcc) :
    (n2nStep numberDensity mgFlux micros acc).rateAbs = acc.rateAbs ∧
    (n2nStep numberDensity mgFlux micros acc).rateCap = acc.rateCap ∧
    (n2nStep numberDensity mgFlux micros acc).rateFis = acc.rateFis := by
  unfold n2nStep
  generalize List.zip mgFlux micros.n2n = l
  induction l generalizing acc with
  | nil => exact ⟨rfl, rfl, rfl⟩
  | cons hd tl ih => simpa using ih _

/-- Per-nuclide invariant: `nucrate.rateAbs = nucrate.rateCap + nucrate.rateFis`. -/
theorem nucRate_abs_eq (obj : RxObject) (keff : ℚ) (lib : XSLibrary)
    (nucName : String) (numberDensity : ℚ) :
    (nucRate obj keff lib nucName numberDensity).rateAbs
      = (nucRate obj keff lib nucName numberDensity).rateCap
        + (nucRate obj keff lib nucName numberDensity).rateFis := by
  unfold nucRate
  obtain ⟨h1, h2, h3⟩ := n2nStep_preserves numberDensity obj.mgFlux
    (lib.getNuclide nucName obj.microSuffix)
    (RX_ABS_MICRO_LABELS.foldl
      (absStep keff numberDensity obj.mgFlux (lib.getNuclide nucName obj.microSuffix))
      RateAcc.zero)
  rw [h1, h2, h3]
  have key : ∀ (labels : List String) (acc : RateAcc),
      (labels.foldl (absStep keff numberDensity obj.mgFlux
          (lib.getNuclide nucName obj.microSuffix)) acc).rateAbs
          - (labels.foldl (absStep keff numberDensity obj.mgFlux
              (lib.getNuclide nucName obj.microSuffix)) acc).rateCap
          - (labels.foldl (absStep keff numberDensity obj.mgFlux
              (lib.getNuclide nucName obj.microSuffix)) acc).rateFis
        = acc.rateAbs - acc.rateCap - acc.rateFis := by
    intro labels
    induction labels with
    | nil => intro acc; rfl
    | cons hd tl ih =>
      intro acc
      rw [List.foldl_cons, ih, absStep_preserves]
  have h := key RX_ABS_MICRO_LABELS RateAcc.zero
  simp only [RateAcc.zero] at h ⊢
  linarith

/-- C7: after `calcReactionRates`, the absorption rate written onto the
object equals the capture rate plus the fission rate (exactly, in the exact
rational model of the accumulation). -/
theorem calcReactionRates_abs_eq_cap_add_fis (obj : RxObject) (keff : ℚ) (lib : XSLibrary) :
    (calcReactionRates obj keff lib).rateAbs
      = (calcReactionRates obj keff lib).rateCap + (calcReactionRates obj keff lib).rateFis := by
  unfold calcReactionRates
  simp only
  have key : ∀ (nds : List (String × ℚ)) (rate : RateAcc),
      rate.rateAbs = rate.rateCap + rate.rateFis →
      (nds.foldl
        (fun rate nd =>
          if nd.2 = 0 then rate
          else
            let nucrate := nucRate obj keff lib nd.1 nd.2
            { rateCap := addIfNonzero rate.rateCap nucrate.rateCap
              rateFis := addIfNonzero rate.rateFis nucrate.rateFis
              rateProdN2n := addIfNonzero rate.rateProdN2n nucrate.rateProdN2n
              rateProdFis := addIfNonzero rate.rateProdFis nucrate.rateProdFis
              rateAbs := addIfNonzero rate.rateAbs nucrate.rateAbs })
        rate).rateAbs
        = (nds.foldl
            (fun rate nd =>
              if nd.2 = 0 then rate
              else
                let nucrate := nucRate obj keff lib nd.1 nd.2
                { rateCap := addIfNonzero rate.rateCap nucrate.rateCap
                  rateFis := addIfNonzero rate.rateFis nucrate.rateFis
                  rateProdN2n := addIfNonzero rate.rateProdN2n nucrate.rateProdN2n
                  rateProdFis := addIfNonzero rate.rateProdFis nucrate.rateProdFis
                  rateAbs := addIfNonzero rate.rateAbs nucrate.rateAbs })
            rate).rateCap
          + (nds.foldl
              (fun rate nd =>
                if nd.2 = 0 then rate
                else
                  let nucrate := nucRate obj keff lib nd.1 nd.2
                  { rateCap := addIfNonzero rate.rateCap nucrate.rateCap
                    rateFis := addIfNonzero rate.rateFis nucrate.rateFis
                    rateProdN2n := addIfNonzero rate.rateProdN2n nucrate.rateProdN2n
                    rateProdFis := addIfNonzero rate.rateProdFis nucrate.rateProdFis
                    rateAbs := addIfNonzero rate.rateAbs nucrate.rateAbs })
              rate).rateFis := by
    intro nds
    induction nds with
    | nil => intro rate h; simpa using h
    | cons hd tl ih =>
      intro rate h
      simp only [List.foldl_cons]
      by_cases hz : hd.2 = 0
      · rw [if_pos hz]
        exact ih rate h
      · rw [if_neg hz]
        apply ih
        simp only [addIfNonzero_eq_add]
        have hn := nucRate_abs_eq obj keff lib hd.1 hd.2
        linarith
  exact key obj.numberDensities RateAcc.zero (by simp [RateAcc.zero])

/-! ## Energy-balance validator (`GlobalFluxInterface.checkEnergyBalance`) -/

/-- Conversion constant watts per megawatt (`units.WATTS_PER_MW`). -/
def WATTS_PER_MW : ℚ := 10 ^ 6

/-- Relative tolerance of the energy-balance check
(`GlobalFluxInterface._ENERGY_BALANCE_REL_TOL`). -/
def ENERGY_BALANCE_REL_TOL : ℚ := 1 / 10 ^ 5

/-- Error message of a failed energy balance check. -/
def energyBalanceError : String :=
  "The power generated does not match the user specified power. This indicates a software bug."

/-- Inputs read by `checkEnergyBalance` from the reactor model: the per-block
powers summed by `calcTotalParam` over generation 2 without full-object
recursion, the core power parameter (after `setPowerIfNecessary`), and the
core power multiplier. -/
structure EnergyBalanceInputs where
  blockPowers : List ℚ
  corePower : ℚ
  powerMultiplier : ℚ

/-- Python `math.isclose(a, b, rel_tol)` with the default `abs_tol = 0`:
true iff the absolute difference is within `rel_tol` times the larger
magnitude. -/
def mathIsclose (a b relTol : ℚ) : Bool := |a - b| ≤ relTol * max |a| |b|

/-- The generated power in MW computed by `checkEnergyBalance`. -/
def powerGenerated (inp : EnergyBalanceInputs) : ℚ := inp.blockPowers.sum / WATTS_PER_MW

/-- The specified power in MW computed by `checkEnergyBalance`. -/
def specifiedPower (inp : EnergyBalanceInputs) : ℚ :=
  inp.corePower / WATTS_PER_MW / inp.powerMultiplier

/-- Shallow embedding of `checkEnergyBalance`: raise exactly when the two
powers are not close within the 1e-5 relative tolerance. -/
def checkEnergyBalance (inp : EnergyBalanceInputs) : Except String Unit :=
  if mathIsclose (powerGenerated inp) (specifiedPower inp) ENERGY_BALANCE_REL_TOL then
    .ok ()
  else
    .error energyBalanceError

/-- C8: `checkEnergyBalance` fails fatally exactly when the absolute
difference between generated and specified power (both in MW) exceeds 1e-5
times the larger of their magnitudes, i.e. when the relative difference
exceeds 1e-5. -/
theorem checkEnergyBalance_iff (inp : EnergyBalanceInputs) :
    checkEnergyBalance inp = .error energyBalanceError ↔
      ENERGY_BALANCE_REL_TOL * max |powerGenerated inp| |specifiedPower inp|
        < |powerGenerated inp - specifiedPower inp| := by
  unfold checkEnergyBalance mathIsclose
  by_cases h : |powerGenerated inp - specifiedPower inp|
      ≤ ENERGY_BALANCE_REL_TOL * max |powerGenerated inp| |specifiedPower inp|
  · simp [h, not_lt.mpr h]
  · simp [h, not_le.mp h]

/-- C8 witness: with a specified core power of 1e8 W and multiplier 1
(100 MW), a generated power of 100.0009 MW passes while 100.2 MW fails. -/
theorem checkEnergyBalance_iff_witness :
    checkEnergyBalance ⟨[100000900], 10 ^ 8, 1⟩ = .ok () ∧
    checkEnergyBalance ⟨[100200000], 10 ^ 8, 1⟩ = .error energyBalanceError := by
  constructor
  · have hpg : powerGenerated ⟨[100000900], 10 ^ 8, 1⟩ = 1000009 / 10000 := by
      norm_num [powerGenerated, WATTS_PER_MW]
    have hps : specifiedPower ⟨[100000900], 10 ^ 8, 1⟩ = 100 := by
      norm_num [specifiedPower, WATTS_PER_MW]
    have hc : mathIsclose (powerGenerated ⟨[100000900], 10 ^ 8, 1⟩)
        (specifiedPower ⟨[100000900], 10 ^ 8, 1⟩) ENERGY_BALANCE_REL_TOL = true := by
      rw [mathIsclose, hpg, hps, decide_eq_true_eq]
      have h1 : |(1000009 : ℚ) / 10000 - 100| = 9 / 10000 := by
        rw [show (1000009 : ℚ) / 10000 - 100 = 9 / 10000 by norm_num,
          abs_of_nonneg (by norm_num : (0 : ℚ) ≤ 9 / 10000)]
      have h2 : max |(1000009 : ℚ) / 10000| |(100 : ℚ)| = 1000009 / 10000 := by
        rw [abs_of_nonneg (by norm_num : (0 : ℚ) ≤ 1000009 / 10000),
          abs_of_nonneg (by norm_num : (0 : ℚ) ≤ 100)]
        exact max_eq_left (by norm_num)
      rw [h1, h2]
      norm_num [ENERGY_BALANCE_REL_TOL]
    unfold checkEnergyBalance
    rw [if_pos hc]
  · exact (checkEnergyBalance_iff ⟨[100200000], 10 ^ 8, 1⟩).mpr
      (by norm_num [powerGenerated, specifiedPower, WATTS_PER_MW, ENERGY_BALANCE_REL_TOL, abs])

/-! ## Geometry transform pipeline and execution orchestrator
(`GlobalFluxExecuter._performGeometryTransformations`,
`GlobalFluxExecuter._undoGeometryTransformations`)

The reactor model is an external object graph; it is modelled here by an
arbitrary type `R` of model states, and the external collaborators
(uniform-mesh conversion, edge-assembly insertion and removal, parameter
rescaling, the flux solver) by arbitrary functions over `R`, bundled in
`ExternalOps`. -/

/-- Symmetry domain (`geometry.DomainType`). -/
inductive DomainType
  | fullCore
  | thirdCore
  | quarterCore
  deriving DecidableEq, BEq

/-- Symmetry boundary (`geometry.BoundaryType`). -/
inductive BoundaryType
  | periodic
  | reflective
  deriving DecidableEq, BEq

/-- Core geometry type (`geometry.GeomType`). -/
inductive GeomType
  | hex
  | cartesian
  | rz
  deriving DecidableEq, BEq

/-- The options fields read by the geometry transform pipeline. -/
structure TransformOptions where
  detailedAxialExpansion : Bool
  hasNonUniformAssems : Bool
  applyResultsToReactor : Bool
  kernelName : String
  symmetryDomain : DomainType
  symmetryBoundary : BoundaryType
  geomType : GeomType

/-- External collaborators of the pipeline, over an abstract reactor-model
state type `R`.

Modelled from the spec: the bodies of
`uniformMesh.converterFactory(...).convert` / `applyStateToOriginal`,
`geometryConverters.EdgeAssemblyChanger.addEdgeAssemblies` /
`scaleParamsRelatedToSymmetry` / `removeEdgeAssemblies` and the external
flux solver are not under src/; only their call sites are.  Each is an
opaque state transformer: `convertReactor` builds the averaged-mesh copy,
`applyStateToOriginal conv orig` pushes the converted model state back onto
the original model, and `solve` returns the mutated working model together
with the solver keff. -/
structure ExternalOps (R : Type) where
  convertReactor : R → R
  addEdgeAssemblies : R → R
  scaleParamsRelatedToSymmetry : R → R
  removeEdgeAssemblies : R → R
  applyStateToOriginal : R → R → R
  solve : R → R × ℚ

/-- The axial uniform-mesh converter as registered by the executer: it keeps
the original model in `_sourceReactor` and the averaged-mesh copy in
`convReactor`. -/
structure UniformMeshConv (R : Type) where
  sourceReactor : R
  convReactor : R
  deriving DecidableEq

/-- The `self.geomConverters` registry: at most one converter per kind.
The edge-assembly changer instance holds no state that this model reads, so
it is a unit token. -/
structure GeomConverters (R : Type) where
  axial : Option (UniformMeshConv R)
  edgeAssems : Option Unit
  deriving DecidableEq

/-- The empty converter registry. -/
def GeomConverters.empty (R : Type) : GeomConverters R := ⟨none, none⟩

/-- Python `any(self.geomConverters)`: true iff the registry holds any
converter (all keys are nonempty strings, hence truthy). -/
def GeomConverters.isActive {R : Type} (gc : GeomConverters R) : Bool :=
  gc.axial.isSome || gc.edgeAssems.isSome

/-- The executer state read and written by the transform steps: the working
reactor pointer `self.r` and the converter registry. -/
structure ExecState (R : Type) where
  r : R
  geomConverters : GeomConverters R
  deriving DecidableEq

/-- The guard message of `_performGeometryTransformations`. -/
def transformGuardError : String :=
  "The reactor has been transformed, but not restored to the original. This is a programming error and requires further investigation."

/-- The kernel-name marker of finite-difference solvers. -/
def fdMarker : String := "FD"

/-- `GlobalFluxExecuter.edgeAssembliesAreNeeded`: finite-difference kernel,
third-core periodic symmetry, hexagonal geometry. -/
def edgeAssembliesAreNeeded (o : TransformOptions) : Bool :=
  (decide ( List.IsInfix fdMarker.toList o.kernelName.toList))
    && o.symmetryDomain == DomainType.thirdCore
    && o.symmetryBoundary == BoundaryType.periodic
    && o.geomType == GeomType.hex

/-- Shallow embedding of `_performGeometryTransformations`: fail if any
converter is still registered; otherwise run the axial converter when
detailed axial expansion or non-uniform assemblies are requested (switching
the working pointer to the converted copy), then add edge assemblies in
place when needed, registering each converter. -/
def performGeometryTransformations {R : Type} (ops : ExternalOps R)
    (o : TransformOptions) (s : ExecState R) : Except String (ExecState R) :=
  if s.geomConverters.isActive then
    .error transformGuardError
  else
    let neutronicsReactor := s.r
    let step1 : R × Option (UniformMeshConv R) :=
      match s.geomConverters.axial with
      | some c => (neutronicsReactor, some c)
      | none =>
        if o.detailedAxialExpansion || o.hasNonUniformAssems then
          let converter : UniformMeshConv R :=
            { sourceReactor := s.r, convReactor := ops.convertReactor s.r }
          (converter.convReactor, some converter)
        else
          (neutronicsReactor, none)
    let step2 : R × Option Unit :=
      if edgeAssembliesAreNeeded o then
        let _converter := s.geomConverters.edgeAssems.getD ()
        (ops.addEdgeAssemblies step1.1, some ())
      else
        (step1.1, s.geomConverters.edgeAssems)
    .ok { r := step2.1, geomConverters := { axial := step1.2, edgeAssems := step2.2 } }

/-- Shallow embedding of `_undoGeometryTransformations`: undo the
edge-assembly insertion first (rescale symmetry-dependent parameters on the
working model, then remove the edge assemblies), then undo the axial
conversion (apply the converted state back onto the original model exactly
when `applyResultsToReactor` or `hasNonUniformAssems`, and point `self.r`
back at the original), and finally clear the registry unconditionally.  The
source method contains no raise statement of its own. -/
def undoGeometryTransformations {R : Type} (ops : ExternalOps R)
    (o : TransformOptions) (s : ExecState R) : ExecState R :=
  let s1 : ExecState R :=
    match s.geomConverters.edgeAssems with
    | some _ =>
      { s with r := ops.removeEdgeAssemblies (ops.scaleParamsRelatedToSymmetry s.r) }
    | none => s
  let s2 : ExecState R :=
    match s1.geomConverters.axial with
    | some meshConverter =>
      if o.applyResultsToReactor || o.hasNonUniformAssems then
        { s1 with r := ops.applyStateToOriginal s1.r meshConverter.sourceReactor }
      else
        { s1 with r := meshConverter.sourceReactor }
    | none => s1
  { s2 with geomConverters := GeomConverters.empty R }

/-- Modelled from the spec: `executers.DefaultExecuter.run` (not under
src/) drives transform, external solve, result mapping and restore in
sequence for one solve and returns an output exposing the solver keff; the
solver and the result mappers write only onto the working model. -/
def run {R : Type} (ops : ExternalOps R) (o : TransformOptions)
    (s : ExecState R) : Except String (ℚ × ExecState R) :=
  match performGeometryTransformations ops o s with
  | .error e => .error e
  | .ok s1 =>
    let solved := ops.solve s1.r
    let s2 : ExecState R := { s1 with r := solved.1 }
    .ok (solved.2, undoGeometryTransformations ops o s2)

/-- The working model handed to the solver when the axial conversion runs:
the averaged-mesh copy, with edge assemblies added in place when needed. -/
def transformedModel {R : Type} (ops : ExternalOps R) (o : TransformOptions)
    (r0 : R) : R :=
  let conv := ops.convertReactor r0
  if edgeAssembliesAreNeeded o then ops.addEdgeAssemblies conv else conv

/-- Starting from an empty registry, the apply step registers the axial
converter exactly when detailed axial expansion or non-uniform assemblies
are requested, and the edge-assembly changer exactly when edge assemblies
are needed. -/
theorem performGeometryTransformations_registry {R : Type} (ops : ExternalOps R)
    (o : TransformOptions) (r0 : R) (s1 : ExecState R)
    (hok : performGeometryTransformations ops o ⟨r0, GeomConverters.empty R⟩ = .ok s1) :
    s1.geomConverters.axial.isSome = (o.detailedAxialExpansion || o.hasNonUniformAssems) ∧
    s1.geomConverters.edgeAssems.isSome = edgeAssembliesAreNeeded o := by
  unfold performGeometryTransformations at hok
  rw [if_neg (by simp [GeomConverters.isActive, GeomConverters.empty])] at hok
  simp only [GeomConverters.empty] at hok
  cases hax : (o.detailedAxialExpansion || o.hasNonUniformAssems) <;>
    cases hedge : edgeAssembliesAreNeeded o <;>
    (simp [hax, hedge] at hok; rw [← hok]; simp [hax, hedge])

/-- C1 (amended): entering the transform-apply step while any converter is
registered fails with the fatal programming-error condition, and for every
options value that registers at least one converter (detailed axial
expansion, non-uniform assemblies, or edge assemblies needed), a second
apply without an intervening restore fails on the second call.  (For
options registering no converter, a second apply succeeds — see the
counterexample.) -/
theorem performGeometryTransformations_guard {R : Type} (ops : ExternalOps R)
    (o : TransformOptions) :
    (∀ s : ExecState R, s.geomConverters.isActive = true →
      performGeometryTransformations ops o s = .error transformGuardError) ∧
    (∀ (r0 : R) (s1 : ExecState R),
      (o.detailedAxialExpansion || o.hasNonUniformAssems || edgeAssembliesAreNeeded o) = true →
      performGeometryTransformations ops o ⟨r0, GeomConverters.empty R⟩ = .ok s1 →
      performGeometryTransformations ops o s1 = .error transformGuardError) := by
  constructor
  · intro s hs
    unfold performGeometryTransformations
    rw [if_pos hs]
  · intro r0 s1 hflag hok
    obtain ⟨hax, hedge⟩ := performGeometryTransformations_registry ops o r0 s1 hok
    have hs1 : s1.geomConverters.isActive = true := by
      cases h1 : (o.detailedAxialExpansion || o.hasNonUniformAssems) <;>
        cases h2 : edgeAssembliesAreNeeded o <;>
        simp_all [GeomConverters.isActive]
    unfold performGeometryTransformations
    rw [if_pos hs1]

/-- Options that request no geometry transformation at all. -/
def noTransformOpts : TransformOptions :=
  { detailedAxialExpansion := false
    hasNonUniformAssems := false
    applyResultsToReactor := true
    kernelName := ""
    symmetryDomain := DomainType.fullCore
    symmetryBoundary := BoundaryType.reflective
    geomType := GeomType.cartesian }

/-- Options that request only the detailed axial expansion, without applying
results back to the reactor. -/
def axialOnlyOpts : TransformOptions :=
  { detailedAxialExpansion := true
    hasNonUniformAssems := false
    applyResultsToReactor := false
    kernelName := ""
    symmetryDomain := DomainType.fullCore
    symmetryBoundary := BoundaryType.reflective
    geomType := GeomType.cartesian }

/-- Options with non-uniform assemblies present and results not applied back. -/
def nonUniformOpts : TransformOptions :=
  { detailedAxialExpansion := false
    hasNonUniformAssems := true
    applyResultsToReactor := false
    kernelName := ""
    symmetryDomain := DomainType.fullCore
    symmetryBoundary := BoundaryType.reflective
    geomType := GeomType.cartesian }

/-- Concrete external collaborators over an integer model state: conversion
copies the state, applying converted state back overwrites the original,
and the solver increments the model (its parameter writes) and returns
keff 1. -/
def incOps : ExternalOps ℤ :=
  { convertReactor := fun r => r
    addEdgeAssemblies := fun r => r
    scaleParamsRelatedToSymmetry := fun r => r
    removeEdgeAssemblies := fun r => r
    applyStateToOriginal := fun conv _ => conv
    solve := fun r => (r + 1, 1) }

/-- Concrete external collaborators whose axial conversion doubles the model
state and whose solver adds 5 and returns keff 6. -/
def doubleOps : ExternalOps ℤ :=
  { convertReactor := fun r => r * 2
    addEdgeAssemblies := fun r => r
    scaleParamsRelatedToSymmetry := fun r => r
    removeEdgeAssemblies := fun r => r
    applyStateToOriginal := fun conv _ => conv
    solve := fun r => (r + 5, 6) }

/-- C1 counterexample: for options that register no converter, applying the
transform step twice without a restore succeeds both times — the registry
stays empty, so the second call does not raise, contradicting the claim's
universal quantification over options. -/
theorem performGeometryTransformations_twice_counterexample :
    performGeometryTransformations incOps noTransformOpts
        ⟨(0 : ℤ), GeomConverters.empty ℤ⟩ = .ok ⟨0, GeomConverters.empty ℤ⟩ ∧
    performGeometryTransformations incOps noTransformOpts
        ⟨(0 : ℤ), GeomConverters.empty ℤ⟩ ≠ .error transformGuardError := by
  constructor
  · rfl
  · intro h
    simp [performGeometryTransformations, GeomConverters.isActive,
      GeomConverters.empty] at h

/-- C1 witness: with detailed axial expansion requested, the first apply
registers the axial converter and the second apply raises the fatal
programming-error condition. -/
theorem performGeometryTransformations_guard_witness :
    performGeometryTransformations incOps axialOnlyOpts
        (⟨0, ⟨some ⟨0, 0⟩, none⟩⟩ : ExecState ℤ) = .error transformGuardError :=
  (performGeometryTransformations_guard incOps axialOnlyOpts).2 0
    ⟨0, ⟨some ⟨0, 0⟩, none⟩⟩ (by rfl) (by rfl)

/-- C2 (amended): when the axial conversion runs (detailed axial expansion)
and there are no non-uniform assemblies, an apply-solve-restore cycle with
`applyResultsToReactor = false` returns the caller's original model state
unchanged, while the returned keff is the one the solver produced on the
transformed model.  (With non-uniform assemblies present the restore step
commits results even though `applyResultsToReactor` is false — see the
counterexample.) -/
theorem run_applyResultsFalse {R : Type} (ops : ExternalOps R) (o : TransformOptions)
    (r0 : R) (keff : ℚ) (s1 : ExecState R)
    (hax : o.detailedAxialExpansion = true)
    (hnu : o.hasNonUniformAssems = false)
    (happ : o.applyResultsToReactor = false)
    (hrun : run ops o ⟨r0, GeomConverters.empty R⟩ = .ok (keff, s1)) :
    s1.r = r0 ∧ keff = (ops.solve (transformedModel ops o r0)).2 := by
  unfold run performGeometryTransformations at hrun
  rw [if_neg (by simp [GeomConverters.isActive, GeomConverters.empty])] at hrun
  simp only [GeomConverters.empty, hax, Bool.true_or, if_true] at hrun
  cases hedge : edgeAssembliesAreNeeded o <;>
    simp only [hedge, if_true, if_false, Bool.false_eq_true] at hrun <;>
    · simp only [undoGeometryTransformations, happ, hnu, Bool.or_self,
        Bool.false_eq_true, if_false, Except.ok.injEq, Prod.mk.injEq] at hrun
      obtain ⟨hk, hs⟩ := hrun
      subst hs
      exact ⟨rfl, by rw [← hk]; simp [transformedModel, hedge]⟩

/-- C2 witness: with the doubling conversion and the add-5 solver, running
from original state 3 returns the solver keff 6 obtained on the transformed
model, and the final model state is the untouched original 3. -/
theorem run_applyResultsFalse_witness :
    (⟨3, GeomConverters.empty ℤ⟩ : ExecState ℤ).r = 3 ∧
    (6 : ℚ) = (doubleOps.solve (transformedModel doubleOps axialOnlyOpts 3)).2 :=
  run_applyResultsFalse doubleOps axialOnlyOpts 3 6 ⟨3, GeomConverters.empty ℤ⟩
    rfl rfl rfl (by rfl)

/-- C2 counterexample: with non-uniform assemblies present and
`applyResultsToReactor = false`, the restore step still pushes the solved
converted state back onto the original model: starting from original state
0, the cycle ends with model state 1, so the original is not unchanged. -/
theorem run_applyResultsFalse_counterexample :
    run incOps nonUniformOpts ⟨(0 : ℤ), GeomConverters.empty ℤ⟩
        = .ok (1, ⟨1, GeomConverters.empty ℤ⟩) ∧ (1 : ℤ) ≠ 0 :=
  ⟨by rfl, by decide⟩

/-- C3: the restore step always leaves the converter registry empty, and
running restore again immediately afterwards is a no-op: it consults no
converter (both registry lookups yield none, so no converter operation runs
and nothing can raise) and returns the state unchanged. -/
theorem undoGeometryTransformations_idempotent {R : Type} (ops : ExternalOps R)
    (o : TransformOptions) (s : ExecState R) :
    (undoGeometryTransformations ops o s).geomConverters = GeomConverters.empty R ∧
    undoGeometryTransformations ops o (undoGeometryTransformations ops o s)
      = undoGeometryTransformations ops o s :=
  ⟨rfl, rfl⟩

/-! ## Dose / fluence accumulation engine (`DoseResultsMapper.updateFluenceAndDpa`)

Blocks and assemblies are modelled by records of the parameters this engine
reads and writes; the external reactor-model queries used by the
cycle-summary and load-pad passes are abstract functions bundled in
`DoseExternals`.  In the source the processed blocks are mutated in place;
here the processed list is returned alongside the reactor, and when the
default core block list is used the core's blocks are the processed ones. -/

/-- Seconds per day (`units.SECONDS_PER_DAY`). -/
def SECONDS_PER_DAY : ℚ := 86400

/-- Block parameters read and written by the dose engine. -/
structure DoseBlock where
  residence : ℚ
  flux : ℚ
  fluence : ℚ
  fastFluence : ℚ
  fastFluxFr : ℚ
  fluxPeak : ℚ
  fastFluencePeak : ℚ
  detailedDpaRate : ℚ
  detailedDpaPeakRate : ℚ
  newDPA : ℚ
  newDPAPeak : ℚ
  detailedDpa : ℚ
  detailedDpaPeak : ℚ
  detailedDpaThisCycle : ℚ
  pointsCornerDpaRate : Option (List ℚ)
  pointsCornerDpa : Option (List ℚ)
  pointsEdgeDpaRate : Option (List ℚ)
  pointsEdgeDpa : Option (List ℚ)
  dpaPeakFromFluence : ℚ
  buRatePeak : ℚ
  buRate : ℚ
  percentBu : ℚ
  percentBuPeak : ℚ
  isFuel : Bool
  isGridPlate : Bool
  deriving DecidableEq

/-- Assembly slice used by the dose engine. -/
structure DoseAssembly where
  blocks : List DoseBlock
  daysSinceLastMove : ℚ
  isFuel : Bool
  deriving DecidableEq

/-- Core-level parameters written by the dose summaries. -/
structure CoreDoseParams where
  maxdetailedDpaPeak : ℚ
  maxDPA : ℚ
  maxGridDpa : ℚ
  maxDetailedDpaThisCycle : ℚ
  dpaFullWidthHalfMax : ℚ
  elevationOfACLP3Cycles : ℚ
  elevationOfACLP7Cycles : ℚ
  loadPadDpaAvg : ℚ
  loadPadDpaPeak : ℚ
  deriving DecidableEq

/-- The reactor slice the dose engine operates on (`self.r`): assemblies
with their blocks, core parameters, the time position, and the operator
step lengths consumed by the cycle summary. -/
structure DoseReactor where
  assemblies : List DoseAssembly
  core : CoreDoseParams
  cycle : Nat
  timeNode : Nat
  stepLengths : List (List ℚ)
  cycleLength : ℚ
  deriving DecidableEq

/-- Options and settings fields read by the dose engine
(`options.dpaPerFluence`, `options.aclpDoseLimit`, `options.loadPadElevation`,
`options.loadPadLength`, `cs burnupPeakingFactor`).  Optional floats keep
Python truthiness: `none` and 0.0 are both falsy. -/
structure DoseOptions where
  dpaPerFluence : Option ℚ
  aclpDoseLimit : ℚ
  loadPadElevation : Option ℚ
  loadPadLength : Option ℚ
  burnupPeakingFactor : ℚ

/-- Python truthiness of an optional float. -/
def qTruthy : Option ℚ → Bool
  | none => false
  | some x => decide (x ≠ 0)

/-- External reactor-model and numerical services used by the summaries.

Modelled from the spec: `Assembly.getElevationsMatchingParamValue`,
`Assembly.getParamValuesAtZ` (with the max over the sampled load-pad
elevations) and the scipy spline integration over the load pad are not
under src/; they are opaque queries of the block/assembly parameter
profiles. -/
structure DoseExternals where
  getElevationsMatchingParamValue : DoseAssembly → ℚ → List ℚ
  peakDoseOverLoadPad : DoseAssembly → ℚ
  integrateDetailedDpaOverLoadPad : DoseAssembly → ℚ

/-- `GlobalFluxResultMapper.getBurnupPeakingFactor`: prefer the user-set
constant, else the flux peaking `fluxPeak / flux`, else 0.0.  (A zero flux
with a nonzero flux peak would raise ZeroDivisionError in Python; rational
division renders it totally as 0.) -/
def getBurnupPeakingFactor (opts : DoseOptions) (b : DoseBlock) : ℚ :=
  if opts.burnupPeakingFactor = 0 ∧ b.fluxPeak ≠ 0 then b.fluxPeak / b.flux
  else if opts.burnupPeakingFactor = 0 then 0
  else opts.burnupPeakingFactor

/-- The per-block body of `updateFluenceAndDpa`: accumulate residence,
fluence, fast fluence and its peak; compute this step's dpa increments from
the previous step's stored rates and add them to the cumulative and
per-cycle totals; accumulate the optional corner/edge point dpa arrays;
optionally derive the legacy fluence-based peak dpa; and update peak
burnup. -/
def updateDoseBlock (opts : DoseOptions) (stepTimeInSeconds : ℚ) (b : DoseBlock) : DoseBlock :=
  let b := { b with residence := b.residence + stepTimeInSeconds / SECONDS_PER_DAY }
  let b := { b with fluence := b.fluence + b.flux * stepTimeInSeconds }
  let b := { b with fastFluence := b.fastFluence + b.flux * stepTimeInSeconds * b.fastFluxFr }
  let b := { b with
    fastFluencePeak := b.fastFluencePeak + b.fluxPeak * stepTimeInSeconds * b.fastFluxFr }
  let b := { b with newDPA := b.detailedDpaRate * stepTimeInSeconds }
  let b := { b with newDPAPeak := b.detailedDpaPeakRate * stepTimeInSeconds }
  let b := { b with detailedDpa := b.detailedDpa + b.newDPA }
  let b := { b with detailedDpaPeak := b.detailedDpaPeak + b.newDPAPeak }
  let b := { b with detailedDpaThisCycle := b.detailedDpaThisCycle + b.newDPA }
  let b :=
    match b.pointsCornerDpaRate with
    | some rate =>
      let cur := b.pointsCornerDpa.getD (List.replicate 6 0)
      { b with
        pointsCornerDpa := some (List.zipWith (fun c r => c + r * stepTimeInSeconds) cur rate) }
    | none => b
  let b :=
    match b.pointsEdgeDpaRate with
    | some rate =>
      let cur := b.pointsEdgeDpa.getD (List.replicate 6 0)
      { b with
        pointsEdgeDpa := some (List.zipWith (fun c r => c + r * stepTimeInSeconds) cur rate) }
    | none => b
  let b :=
    if qTruthy opts.dpaPerFluence then
      { b with dpaPeakFromFluence := b.fastFluencePeak * opts.dpaPerFluence.getD 0 }
    else b
  let peakRate : Option ℚ :=
    if b.buRatePeak ≠ 0 then some b.buRatePeak
    else if b.buRate ≠ 0 then some (b.buRate * getBurnupPeakingFactor opts b)
    else none
  if qTruthy peakRate then
    let peakRatePerSecond := peakRate.getD 0 / SECONDS_PER_DAY
    { b with percentBuPeak := b.percentBuPeak + peakRatePerSecond * stepTimeInSeconds }
  else
    { b with percentBuPeak := b.percentBu * getBurnupPeakingFactor opts b }

/-- `self.r.core.getBlocks()`: the blocks of all assemblies. -/
def getBlocks (r : DoseReactor) : List DoseBlock :=
  (r.assemblies.map DoseAssembly.blocks).flatten

/-- Modelled from the spec: the external `getMaxBlockParam(param, flag)`
query, the maximum of a block parameter over the core blocks carrying a
flag (0 when there are none). -/
def getMaxBlockParam (r : DoseReactor) (param : DoseBlock → ℚ) (flag : DoseBlock → Bool) : ℚ :=
  ((getBlocks r).filter flag).foldl (fun m b => max m (param b)) 0

/-- Modelled from the spec: the external `Assembly.getMaxParam` query, the
maximum of a block parameter over the assembly blocks (0 when none). -/
def assemblyMaxParam (a : DoseAssembly) (param : DoseBlock → ℚ) : ℚ :=
  a.blocks.foldl (fun m b => max m (param b)) 0

/-- `updateMaxDpaParams`: track the peak dpa over fuel blocks and over grid
plates. -/
def updateMaxDpaParams (r : DoseReactor) : DoseReactor :=
  let maxDpa := getMaxBlockParam r DoseBlock.detailedDpaPeak DoseBlock.isFuel
  let maxGridDose := getMaxBlockParam r DoseBlock.detailedDpaPeak DoseBlock.isGridPlate
  { r with core := { r.core with
      maxdetailedDpaPeak := maxDpa
      maxDPA := maxDpa
      maxGridDpa := maxGridDose } }

/-- `updateCycleDoseParams`: past the first time node of a cycle, find the
assembly with the largest accumulated this-cycle dose, record it, and set
the half-max width and the 3-cycle / 7-cycle ACLP elevations whenever the
corresponding elevation query yields exactly two crossings. -/
def updateCycleDoseParams (ext : DoseExternals) (opts : DoseOptions) (r : DoseReactor) :
    DoseReactor :=
  if r.timeNode ≤ 0 then r
  else
    let daysIntoCycle := ((r.stepLengths.getD r.cycle []).take r.timeNode).sum
    let cycleLength := r.cycleLength
    let acc := r.assemblies.foldl
      (fun acc a =>
        if assemblyMaxParam a DoseBlock.detailedDpaThisCycle > acc.1 then
          (assemblyMaxParam a DoseBlock.detailedDpaThisCycle, some a)
        else acc)
      ((0 : ℚ), (none : Option DoseAssembly))
    let maxDetailedDpaThisCycle := acc.1
    let r1 := { r with core := { r.core with maxDetailedDpaThisCycle := maxDetailedDpaThisCycle } }
    match acc.2 with
    | none => r1
    | some peakDoseAssem =>
      let doseHalfMaxHeights :=
        ext.getElevationsMatchingParamValue peakDoseAssem (maxDetailedDpaThisCycle / 2)
      let r2 :=
        if doseHalfMaxHeights.length ≠ 2 then r1
        else { r1 with core := { r1.core with
          dpaFullWidthHalfMax := doseHalfMaxHeights.getD 1 0 - doseHalfMaxHeights.getD 0 0 } }
      let aclpDoseLimit := opts.aclpDoseLimit
      let aclpDoseLimit3 := aclpDoseLimit / 3 * (daysIntoCycle / cycleLength)
      let aclpLocations3 := ext.getElevationsMatchingParamValue peakDoseAssem aclpDoseLimit3
      let r3 :=
        if aclpLocations3.length ≠ 2 then r2
        else { r2 with core := { r2.core with elevationOfACLP3Cycles := aclpLocations3.getD 1 0 } }
      let aclpDoseLimit7 := aclpDoseLimit / 7 * (daysIntoCycle / cycleLength)
      let aclpLocations7 := ext.getElevationsMatchingParamValue peakDoseAssem aclpDoseLimit7
      if aclpLocations7.length ≠ 2 then r3
      else { r3 with core := { r3.core with elevationOfACLP7Cycles := aclpLocations7.getD 1 0 } }

/-- `_calcLoadPadDose`: when a load pad is configured, scan the fuel
assemblies for the largest peak dose over the pad and the largest
length-normalized integrated average dose. -/
def calcLoadPadDose (ext : DoseExternals) (opts : DoseOptions) (r : DoseReactor) :
    Option (ℚ × Option DoseAssembly) × Option (ℚ × Option DoseAssembly) :=
  if ¬ (qTruthy opts.loadPadElevation && qTruthy opts.loadPadLength) then (none, none)
  else
    let loadPadLength := opts.loadPadLength.getD 0
    let acc := (r.assemblies.filter DoseAssembly.isFuel).foldl
      (fun acc a =>
        let peakDose := ext.peakDoseOverLoadPad a
        let avgDose := ext.integrateDetailedDpaOverLoadPad a / loadPadLength
        let pp := if peakDose > acc.1.1 then (peakDose, some a) else acc.1
        let pa := if avgDose > acc.2.1 then (avgDose, some a) else acc.2
        (pp, pa))
      (((0 : ℚ), (none : Option DoseAssembly)), ((0 : ℚ), (none : Option DoseAssembly)))
    (some acc.1, some acc.2)

/-- `updateLoadpadDose`: write the load-pad peak and max-average doses onto
the core when a load pad is configured. -/
def updateLoadpadDose (ext : DoseExternals) (opts : DoseOptions) (r : DoseReactor) :
    DoseReactor :=
  match calcLoadPadDose ext opts r with
  | (none, _) => r
  | (some peakPeak, peakAvg) =>
    { r with core := { r.core with
        loadPadDpaAvg := (peakAvg.getD (0, none)).1
        loadPadDpaPeak := peakPeak.1 } }

/-- Message for the Python IndexError raised by `blockList[0]`. -/
def indexErrorMsg : String := "IndexError: list index out of range"

/-- The effective block list: `blockList = blockList or self.r.core.getBlocks()`
(`None` and the empty list are both falsy, so both are replaced by the core
block list). -/
def effectiveBlockList (blockListArg : Option (List DoseBlock)) (r : DoseReactor) :
    List DoseBlock :=
  match blockListArg with
  | none => getBlocks r
  | some l => if l.isEmpty then getBlocks r else l

/-- Shallow embedding of `updateFluenceAndDpa(stepTimeInSeconds, blockList)`:
resolve the effective block list (the head access `blockList[0]` raises an
IndexError when it is empty), update every block of the list, advance every
assembly's days-since-last-move, and run the max-dpa, cycle-dose and
load-pad summaries.  The updated block list is returned alongside the
reactor; when the core list was used, the reactor's own blocks are the
updated ones. -/
def updateFluenceAndDpa (ext : DoseExternals) (opts : DoseOptions)
    (stepTimeInSeconds : ℚ) (blockListArg : Option (List DoseBlock)) (r : DoseReactor) :
    Except String (List DoseBlock × DoseReactor) :=
  let blockList := effectiveBlockList blockListArg r
  match blockList with
  | [] => .error indexErrorMsg
  | _b0 :: _rest =>
    let updated := blockList.map (updateDoseBlock opts stepTimeInSeconds)
    let fromCore : Bool :=
      match blockListArg with
      | none => true
      | some l => l.isEmpty
    let mapAssemblyBlocks := fun (a : DoseAssembly) =>
      { a with blocks := a.blocks.map (updateDoseBlock opts stepTimeInSeconds) }
    let r1 := if fromCore then { r with assemblies := r.assemblies.map mapAssemblyBlocks } else r
    let bumpDays := fun (a : DoseAssembly) =>
      { a with daysSinceLastMove := a.daysSinceLastMove + stepTimeInSeconds / SECONDS_PER_DAY }
    let r2 := { r1 with assemblies := r1.assemblies.map bumpDays }
    .ok (updated, updateLoadpadDose ext opts (updateCycleDoseParams ext opts (updateMaxDpaParams r2)))

instance exceptDecidableEq {ε α : Type} [DecidableEq ε] [DecidableEq α] :
    DecidableEq (Except ε α) := fun a b =>
  match a, b with
  | .error e1, .error e2 =>
    if h : e1 = e2 then isTrue (congrArg Except.error h)
    else isFalse (fun hc => h (Except.error.inj hc))
  | .error _, .ok _ => isFalse (fun hc => Except.noConfusion hc)
  | .ok _, .error _ => isFalse (fun hc => Except.noConfusion hc)
  | .ok a1, .ok a2 =>
    if h : a1 = a2 then isTrue (congrArg Except.ok h)
    else isFalse (fun hc => h (Except.ok.inj hc))

theorem updateDoseBlock_dpa_fields (opts : DoseOptions) (dt : ℚ) (b : DoseBlock) :
    (updateDoseBlock opts dt b).detailedDpa = b.detailedDpa + b.detailedDpaRate * dt ∧
    (updateDoseBlock opts dt b).detailedDpaPeak = b.detailedDpaPeak + b.detailedDpaPeakRate * dt ∧
    (updateDoseBlock opts dt b).detailedDpaThisCycle
      = b.detailedDpaThisCycle + b.detailedDpaRate * dt := by
  unfold updateDoseBlock
  cases hc : b.pointsCornerDpaRate <;> cases he : b.pointsEdgeDpaRate <;>
    simp [hc, he] <;> split_ifs <;> simp

/-- A successful `updateFluenceAndDpa` call maps the per-block update over
the effective block list. -/
theorem updateFluenceAndDpa_ok_updated (ext : DoseExternals) (opts : DoseOptions)
    (dt : ℚ) (arg : Option (List DoseBlock)) (r : DoseReactor)
    (updated : List DoseBlock) (r2 : DoseReactor)
    (h : updateFluenceAndDpa ext opts dt arg r = .ok (updated, r2)) :
    updated = (effectiveBlockList arg r).map (updateDoseBlock opts dt) := by
  unfold updateFluenceAndDpa at h
  cases hl : effectiveBlockList arg r with
  | nil => rw [hl] at h; exact absurd h (by simp)
  | cons b0 tl =>
    rw [hl] at h
    simp only [Except.ok.injEq, Prod.mk.injEq] at h
    rw [← h.1, ← hl]

/-- C9: for a successful `updateFluenceAndDpa` call with a non-negative
elapsed step time, every block of the processed list whose stored dpa rates
are non-negative has `detailedDpa`, `detailedDpaPeak` and
`detailedDpaThisCycle` after the call greater than or equal to their values
before the call. -/
theorem updateFluenceAndDpa_monotonic (ext : DoseExternals) (opts : DoseOptions)
    (dt : ℚ) (arg : Option (List DoseBlock)) (r : DoseReactor)
    (updated : List DoseBlock) (r2 : DoseReactor) (i : Nat)
    (hdt : 0 ≤ dt)
    (h : updateFluenceAndDpa ext opts dt arg r = .ok (updated, r2))
    (hi : i < (effectiveBlockList arg r).length)
    (hi2 : i < updated.length)
    (hrate : 0 ≤ ((effectiveBlockList arg r).get ⟨i, hi⟩).detailedDpaRate)
    (hpeakRate : 0 ≤ ((effectiveBlockList arg r).get ⟨i, hi⟩).detailedDpaPeakRate) :
    ((effectiveBlockList arg r).get ⟨i, hi⟩).detailedDpa
        ≤ (updated.get ⟨i, hi2⟩).detailedDpa ∧
    ((effectiveBlockList arg r).get ⟨i, hi⟩).detailedDpaPeak
        ≤ (updated.get ⟨i, hi2⟩).detailedDpaPeak ∧
    ((effectiveBlockList arg r).get ⟨i, hi⟩).detailedDpaThisCycle
        ≤ (updated.get ⟨i, hi2⟩).detailedDpaThisCycle := by
  have hupd := updateFluenceAndDpa_ok_updated ext opts dt arg r updated r2 h
  subst hupd
  have hget : ((effectiveBlockList arg r).map (updateDoseBlock opts dt)).get ⟨i, hi2⟩
      = updateDoseBlock opts dt ((effectiveBlockList arg r).get ⟨i, hi⟩) := by
    simp
  rw [hget]
  obtain ⟨e1, e2, e3⟩ :=
    updateDoseBlock_dpa_fields opts dt ((effectiveBlockList arg r).get ⟨i, hi⟩)
  rw [e1, e2, e3]
  have h1 := mul_nonneg hrate hdt
  have h2 := mul_nonneg hpeakRate hdt
  exact ⟨by linarith, by linarith, by linarith⟩

/-- C10: when no block list is passed and the core has no blocks, the call
fails with an index error (from the `blockList[0]` head access) rather than
completing as a no-op; and an empty list argument is silently replaced by
the core block list — the call behaves exactly as if no list was passed. -/
theorem updateFluenceAndDpa_emptyList :
    (∀ (ext : DoseExternals) (opts : DoseOptions) (dt : ℚ) (r : DoseReactor),
      getBlocks r = [] →
      updateFluenceAndDpa ext opts dt none r = .error indexErrorMsg) ∧
    (∀ (ext : DoseExternals) (opts : DoseOptions) (dt : ℚ) (r : DoseReactor),
      updateFluenceAndDpa ext opts dt (some []) r
        = updateFluenceAndDpa ext opts dt none r) := by
  constructor
  · intro ext opts dt r hempty
    unfold updateFluenceAndDpa effectiveBlockList
    rw [hempty]
  · intro ext opts dt r
    rfl

/-- Witness data for the dose-engine claims: one assembly with one block
whose stored dpa rates are 1, trivial external queries, and a two-second
step. -/
def wOpts : DoseOptions :=
  { dpaPerFluence := none
    aclpDoseLimit := 0
    loadPadElevation := none
    loadPadLength := none
    burnupPeakingFactor := 0 }

def wExt : DoseExternals :=
  { getElevationsMatchingParamValue := fun _ _ => []
    peakDoseOverLoadPad := fun _ => 0
    integrateDetailedDpaOverLoadPad := fun _ => 0 }

def wBlock : DoseBlock :=
  { residence := 0
    flux := 0
    fluence := 0
    fastFluence := 0
    fastFluxFr := 0
    fluxPeak := 1
    fastFluencePeak := 0
    detailedDpaRate := 1
    detailedDpaPeakRate := 1
    newDPA := 0
    newDPAPeak := 0
    detailedDpa := 0
    detailedDpaPeak := 0
    detailedDpaThisCycle := 0
    pointsCornerDpaRate := none
    pointsCornerDpa := none
    pointsEdgeDpaRate := none
    pointsEdgeDpa := none
    dpaPeakFromFluence := 0
    buRatePeak := 0
    buRate := 0
    percentBu := 0
    percentBuPeak := 0
    isFuel := false
    isGridPlate := false }

def wCore : CoreDoseParams := ⟨0, 0, 0, 0, 0, 0, 0, 0, 0⟩

def wReactor : DoseReactor :=
  { assemblies := [{ blocks := [wBlock], daysSinceLastMove := 0, isFuel := false }]
    core := wCore
    cycle := 0
    timeNode := 0
    stepLengths := []
    cycleLength := 1 }

def wUpdated : List DoseBlock := [updateDoseBlock wOpts 2 wBlock]

def wReactor2 : DoseReactor :=
  updateLoadpadDose wExt wOpts (updateCycleDoseParams wExt wOpts (updateMaxDpaParams
    { wReactor with assemblies :=
        [{ blocks := wUpdated, daysSinceLastMove := 0 + 2 / SECONDS_PER_DAY, isFuel := false }] }))

/-- C9 witness: at the concrete one-block reactor with unit dpa rates and a
two-second step, the processed block accumulates dose monotonically. -/
theorem updateFluenceAndDpa_monotonic_witness :
    ((effectiveBlockList none wReactor).get ⟨0, by decide⟩).detailedDpa
        ≤ (wUpdated.get ⟨0, by decide⟩).detailedDpa ∧
    ((effectiveBlockList none wReactor).get ⟨0, by decide⟩).detailedDpaPeak
        ≤ (wUpdated.get ⟨0, by decide⟩).detailedDpaPeak ∧
    ((effectiveBlockList none wReactor).get ⟨0, by decide⟩).detailedDpaThisCycle
        ≤ (wUpdated.get ⟨0, by decide⟩).detailedDpaThisCycle :=
  updateFluenceAndDpa_monotonic wExt wOpts 2 none wReactor wUpdated wReactor2 0
    (by norm_num) (by rfl) (by decide) (by decide)
    (by norm_num [effectiveBlockList, getBlocks, wReactor, wBlock, List.get])
    (by norm_num [effectiveBlockList, getBlocks, wReactor, wBlock, List.get])

/-- A reactor with no assemblies, hence no core blocks. -/
def wEmptyReactor : DoseReactor :=
  { assemblies := []
    core := wCore
    cycle := 0
    timeNode := 0
    stepLengths := []
    cycleLength := 1 }

/-- C10 witness: on a coreless reactor the default call raises the index
error, and the empty-list call behaves identically to the default call. -/
theorem updateFluenceAndDpa_emptyList_witness :
    updateFluenceAndDpa wExt wOpts 1 none wEmptyReactor = .error indexErrorMsg ∧
    updateFluenceAndDpa wExt wOpts 1 (some []) wEmptyReactor
      = updateFluenceAndDpa wExt wOpts 1 none wEmptyReactor :=
  ⟨updateFluenceAndDpa_emptyList.1 wExt wOpts 1 wEmptyReactor rfl,
    updateFluenceAndDpa_emptyList.2 wExt wOpts 1 wEmptyReactor⟩

end GlobalFlux
